import Mathlib

/-!
Shallow embedding of the Elide Python runtime shim
(packages/graalvm-py/.../runtime/python/environment.py, init.py, preamble.py,
and the Flask shim scripts), together with proofs about it.

Conventions of the embedding:
a Python dict with string keys is a Lean association list whose keys are
unique (assignment is update-or-append, preserving insertion order);
a Python operation that may raise KeyError returns Except Unit;
Python truthiness of a string value is non-emptiness.
-/

deriving instance DecidableEq for Except

namespace ElidePy

/-- Python dict assignment d[k] = v: update in place when the key is
present, append otherwise (insertion order preserved). -/
def dictSet {β : Type} (d : List (String × β)) (k : String) (v : β) : List (String × β) :=
  match d with
  | [] => [(k, v)]
  | (k0, v0) :: rest => if k0 = k then (k, v) :: rest else (k0, v0) :: dictSet rest k v

/-- Python truthiness of a string: True exactly when non-empty. -/
def truthy (s : String) : Bool := !s.isEmpty

/-! ## Environment resolver (_Elide_ApplicationEnvironment)

The class holds two dict layers. __virtual_env is a class attribute that
is only ever mutated in place (self.__virtual_env[item] = value), so every
instance shares the one class-level dict; __app_environ may be rebound
per-instance in __init__. An EnvState is the pair of layers one instance
sees at one moment. -/

structure EnvState where
  app_environ : List (String × String)
  virtual_env : List (String × String)
deriving DecidableEq

/-- Source contains_key: item in self.__app_environ or item in self.__virtual_env. -/
def contains_key (s : EnvState) (k : String) : Bool :=
  (s.app_environ.lookup k).isSome || (s.virtual_env.lookup k).isSome

/-- Source __getitem__: self.__virtual_env.get(item) or self.__app_environ.__getitem__(item).
The Python or-expression takes the overlay value only when it is truthy;
on a falsy or absent overlay value it evaluates the base indexing, which
raises KeyError (here Except.error) when the base lacks the key. -/
def env_getitem (s : EnvState) (k : String) : Except Unit String :=
  match s.virtual_env.lookup k with
  | some v =>
    if truthy v then Except.ok v
    else
      match s.app_environ.lookup k with
      | some b => Except.ok b
      | none => Except.error ()
  | none =>
    match s.app_environ.lookup k with
    | some b => Except.ok b
    | none => Except.error ()

/-- Source __setitem__: self.__virtual_env[item] = value. -/
def env_setitem (s : EnvState) (k v : String) : EnvState :=
  { s with virtual_env := dictSet s.virtual_env k v }

/-- Source get(item, default): if item in self: return self[item]; return default. -/
def env_get (s : EnvState) (k : String) (default : String) : Except Unit String :=
  if contains_key s k then env_getitem s k else Except.ok default

/-- Source all_keys: merged = set(app_environ keys); then add each virtual_env key. -/
def all_keys (s : EnvState) : Finset String :=
  s.virtual_env.foldl (fun merged p => insert p.1 merged) (s.app_environ.map Prod.fst).toFinset

/-! ### Helper lemmas -/

theorem lookup_isSome_iff_mem_keys {β : Type} (l : List (String × β)) (k : String) :
    (l.lookup k).isSome = true ↔ k ∈ l.map Prod.fst := by
  induction l with
  | nil => simp [List.lookup]
  | cons p rest ih =>
    obtain ⟨k0, v0⟩ := p
    simp only [List.lookup, List.map_cons, List.mem_cons]
    by_cases hk : k = k0
    · subst hk; simp
    · have hbeq : (k == k0) = false := beq_eq_false_iff_ne.mpr hk
      simp [hbeq, ih, hk]

theorem mem_foldl_insert (l : List (String × String)) (init : Finset String) (k : String) :
    k ∈ l.foldl (fun merged p => insert p.1 merged) init ↔ k ∈ init ∨ k ∈ l.map Prod.fst := by
  induction l generalizing init with
  | nil => simp
  | cons p rest ih =>
    simp only [List.foldl_cons, ih, Finset.mem_insert, List.map_cons, List.mem_cons]
    tauto

theorem lookup_dictSet_self {β : Type} (d : List (String × β)) (k : String) (v : β) :
    (dictSet d k v).lookup k = some v := by
  induction d with
  | nil => simp [dictSet, List.lookup]
  | cons p rest ih =>
    obtain ⟨k0, v0⟩ := p
    by_cases hk : k0 = k
    · subst hk; simp [dictSet, List.lookup]
    · have hbeq : (k == k0) = false := beq_eq_false_iff_ne.mpr (fun h => hk h.symm)
      simp [dictSet, hk, List.lookup, hbeq, ih]

/-! ## Symbol bridge (bind_factory in init.py / preamble.py)

State of the interop layer: the registered_py_symbols dict declared in
__init__interop (its values are irrelevant, only key membership is
tested, so we keep the key list), and the host polyglot symbol table
written by polyglot.export_value (which overwrites silently). Guest
objects are identified by Nat ids. -/

structure InteropState where
  registered_py_symbols : List String
  polyglot_exports : List (String × Nat)
deriving DecidableEq

/-- Source symbol = name or obj.__name__ (a falsy name such as None or an
empty string falls through to the object name). -/
def bind_symbol (name : Option String) (objName : String) : String :=
  match name with
  | some n => if truthy n then n else objName
  | none => objName

/-- Source binder(obj) inside bind_factory(name): raise ValueError if the
symbol is in registered_py_symbols, otherwise polyglot.export_value and
return obj. Nothing in the source ever inserts into
registered_py_symbols. -/
def bind_binder (st : InteropState) (name : Option String) (objName : String) (obj : Nat) :
    Except String (InteropState × Nat) :=
  let symbol := bind_symbol name objName
  if symbol ∈ st.registered_py_symbols then
    Except.error ("Symbol already bound for polyglot access: " ++ symbol)
  else
    Except.ok ({ st with polyglot_exports := dictSet st.polyglot_exports symbol obj }, obj)

/-! ## Environment installation (install / __patch / __singleton)

Process-wide state touched by the classmethods: os.environ (initially the
native table, possibly replaced by a resolver singleton identified by a
Nat id), the _patched class flag, and the _singleton class slot. Fresh
singleton ids come from a counter. -/

inductive OsAccessor where
  | native
  | resolver (id : Nat)
deriving DecidableEq

structure InstallState where
  osEnv : OsAccessor
  patched : Bool
  singleton : Option Nat
  nextId : Nat
deriving DecidableEq

/-- Identifier the singleton accessor resolves to: the existing one, or a
fresh id when none exists yet. -/
def singletonId (s : InstallState) : Nat := s.singleton.getD s.nextId

/-- Source __singleton classmethod: create the singleton when the class
slot is empty, then return it. -/
def resolve_singleton (s : InstallState) : Nat × InstallState :=
  match s.singleton with
  | some i => (i, s)
  | none => (s.nextId, { s with singleton := some s.nextId, nextId := s.nextId + 1 })

/-- Source __patch classmethod: unless _patched is already set, assign
os.environ to the singleton and set _patched. -/
def patch (s : InstallState) (i : Nat) : InstallState :=
  if s.patched then s else { s with osEnv := OsAccessor.resolver i, patched := true }

/-- Source install classmethod: cls.__patch(cls.__singleton()). -/
def install (s : InstallState) : InstallState :=
  let p := resolve_singleton s
  patch p.2 p.1

/-! ## FlaskBridge.route (init.py) / Flask.route (tools/scripts/flask/app.py)

A Python handler object is either a plain user function or the dispatcher
closure created by the wrapper; the _elide_flask_handler marker is
present exactly on dispatchers. The bridge's registered route table is a
list of (endpoint name, rule, methods, handler) records; bridge.route
appends. -/

inductive PyHandler where
  | plain (name : String) (id : Nat)
  | dispatcher (inner : PyHandler)
deriving DecidableEq

/-- Marker test hasattr(handler, "_elide_flask_handler"). -/
def hasMarker : PyHandler → Bool
  | PyHandler.plain _ _ => false
  | PyHandler.dispatcher _ => true

/-- Python __name__ of the handler object: the user function's own name,
or "dispatcher" for the wrapper closure (no functools.wraps is applied). -/
def pyName : PyHandler → String
  | PyHandler.plain n _ => n
  | PyHandler.dispatcher _ => "dispatcher"

structure RouteReg where
  endpoint : String
  rule : String
  methods : List String
  handler : PyHandler
deriving DecidableEq

/-- Source handler_wrapper inside FlaskBridge.route(rule, **options):
methods = options.get("methods", ["GET"]); when the handler already
carries the marker it is registered as-is and returned; otherwise a
dispatcher is created, marked, registered and returned. -/
def route_handler_wrapper (bridge : List RouteReg) (rule : String)
    (optMethods : Option (List String)) (handler : PyHandler) :
    List RouteReg × PyHandler :=
  let methods := optMethods.getD ["GET"]
  if hasMarker handler then
    (bridge ++ [⟨pyName handler, rule, methods, handler⟩], handler)
  else
    let d := PyHandler.dispatcher handler
    (bridge ++ [⟨pyName handler, rule, methods, d⟩], d)

/-! ## Response shape and redirect (init.py) -/

structure NormalizedResponse where
  status : Nat
  headers : List (String × String)
  body : String
deriving DecidableEq

/-- Modelled from the spec: flask_binding().make_response() is provided by
the host-side FlaskIntrinsic, which is not under src/; the spec's
NormalizedResponse gives the fresh-response defaults (status 200 when
unspecified, empty body, no headers yet). -/
def make_response_default : NormalizedResponse :=
  { status := 200, headers := [], body := "" }

/-- Source redirect(target) in init.py: take a fresh response, set
status = 302 and headers["Location"] = target, return it. -/
def redirect (target : String) : NormalizedResponse :=
  let response := make_response_default
  { response with
    status := 302
    headers := dictSet response.headers "Location" target }

/-! ## URL reversal (url_for)

The Python url_for in init.py forwards to the host-side FlaskIntrinsic;
that host implementation is not under src/, so the reversal itself is
modelled from the spec (sections 4.1, 4.2, 4.5): split the registered
pattern on slashes, a segment wrapped in angle brackets is a named
parameter; substitute parameters into the path; append the entries not
consumed by a named slot as a percent-encoded query string, the first
preceded by a question mark and the rest by ampersands. -/

/-- Split a character list on the slash character, Python str.split("/"). -/
def splitSlash : List Char → List (List Char)
  | [] => [[]]
  | c :: rest =>
    if c = '/' then [] :: splitSlash rest
    else
      match splitSlash rest with
      | [] => [[c]]
      | g :: gs => (c :: g) :: gs

inductive Segment where
  | literal (s : List Char)
  | param (name : List Char)
deriving DecidableEq

/-- Modelled from the spec (4.1): a segment wrapped in angle brackets is a
named parameter; anything else is a literal segment. -/
def compileSegment (cs : List Char) : Segment :=
  match cs with
  | '<' :: rest =>
    match rest.getLast? with
    | some '>' => Segment.param rest.dropLast
    | _ => Segment.literal cs
  | _ => Segment.literal cs

/-- Modelled from the spec (4.1 compile): split the pattern on slashes and
classify each segment. -/
def compilePattern (pattern : String) : List Segment :=
  (splitSlash pattern.toList).map compileSegment

/-- Names of the parameter segments of a compiled template. -/
def templateParams (segs : List Segment) : List String :=
  segs.filterMap fun s =>
    match s with
    | Segment.param n => some (String.mk n)
    | Segment.literal _ => none

/-- Modelled from the spec (4.1 build): substitute every named parameter,
failing when a required name is absent from params. -/
def buildSegments (segs : List Segment) (params : List (String × String)) :
    Option (List (List Char)) :=
  segs.mapM fun s =>
    match s with
    | Segment.literal l => some l
    | Segment.param n => (params.lookup (String.mk n)).map String.toList

/-- Rejoin built segments with slashes. -/
def joinSlash (parts : List (List Char)) : String :=
  String.mk (List.intercalate ['/'] parts)

/-- Modelled from the spec (4.1 build): the built path, or a miss on a
missing required parameter. -/
def buildPath (segs : List Segment) (params : List (String × String)) : Option String :=
  (buildSegments segs params).map joinSlash

/-- Uppercase hexadecimal digit of a value below 16. -/
def hexDigit (n : Nat) : Char :=
  if n < 10 then Char.ofNat (48 + n) else Char.ofNat (55 + n)

/-- UTF-8 bytes of a code point. -/
def utf8Bytes (n : Nat) : List Nat :=
  if n < 128 then [n]
  else if n < 2048 then [192 + n / 64, 128 + n % 64]
  else if n < 65536 then [224 + n / 4096, 128 + n / 64 % 64, 128 + n % 64]
  else [240 + n / 262144, 128 + n / 4096 % 64, 128 + n / 64 % 64, 128 + n % 64]

/-- Characters left untouched by percent-encoding (RFC 3986 unreserved). -/
def isUnreserved (c : Char) : Bool :=
  c.isAlphanum || c == '-' || c == '_' || c == '.' || c == '~'

/-- Percent-encode one character. -/
def percentEncodeChar (c : Char) : String :=
  if isUnreserved c then String.mk [c]
  else String.join ((utf8Bytes c.toNat).map fun b => String.mk ['%', hexDigit (b / 16), hexDigit (b % 16)])

/-- Modelled from the spec: standard percent-encoding of a string. -/
def percentEncode (s : String) : String :=
  String.join (s.toList.map percentEncodeChar)

/-- One key=value query entry, both sides percent-encoded. -/
def queryEntry (p : String × String) : String :=
  percentEncode p.1 ++ "=" ++ percentEncode p.2

/-- Modelled from the spec (4.5): the query suffix built from surplus
entries — empty when there are none, otherwise a question mark before the
first entry and an ampersand before each subsequent entry. -/
def queryString (surplus : List (String × String)) : String :=
  if surplus.isEmpty then ""
  else "?" ++ String.intercalate "&" (surplus.map queryEntry)

/-- Params entries whose key does not fill a named slot of the template. -/
def surplusParams (segs : List Segment) (params : List (String × String)) :
    List (String × String) :=
  params.filter fun p => !((templateParams segs).contains p.1)

/-- Modelled from the spec: the host-side FlaskIntrinsic url_for, which
the Python url_for(endpoint, **variables) in init.py forwards to: look up
the endpoint's registered pattern, build the path from the params, and
append the surplus entries as a percent-encoded query string. -/
def url_for (routes : List (String × String)) (endpoint : String)
    (params : List (String × String)) : Option String :=
  match routes.lookup endpoint with
  | none => none
  | some pattern =>
    let segs := compilePattern pattern
    match buildPath segs params with
    | none => none
    | some path => some (path ++ queryString (surplusParams segs params))

/-! ## Claim theorems -/

/-- Claim C1, evaluated at the failing inputs: the claim says a
present-but-falsy overlay value is still returned by __getitem__, falling
through to the base only on true absence. The code's or-expression instead
falls through whenever the overlay value is falsy: with the overlay binding
"K" to the empty string, lookup returns the base value when the base has
"K" and raises KeyError when it does not — the overlay's empty string is
never returned. -/
theorem c1_overlay_falsy_value_falls_through :
    env_getitem { app_environ := [("K", "base")], virtual_env := [("K", "")] } "K" =
      Except.ok "base" ∧
    env_getitem { app_environ := [], virtual_env := [("K", "")] } "K" = Except.error () := by
  decide

/-- Claim C2: the claim says a second bind with an already-bound name fails
with a duplicate-symbol ValueError. In the code nothing ever inserts into
registered_py_symbols, so from any state with that dict empty — and it is
empty initially and stays empty — every bind succeeds, returns the object,
leaves the dict empty, and silently overwrites the polyglot export. Hence
the second bind of the same name can never fail. -/
theorem c2_duplicate_bind_never_fails (st : InteropState)
    (h : st.registered_py_symbols = []) (name : Option String) (objName : String) (obj : Nat) :
    bind_binder st name objName obj =
      Except.ok ({ registered_py_symbols := st.registered_py_symbols,
                   polyglot_exports := dictSet st.polyglot_exports (bind_symbol name objName) obj },
                 obj) := by
  simp [bind_binder, h]

/-- Claim C2 witness: binding "say_hello" twice from the initial interop
state raises no error on the second call; the export is overwritten. -/
theorem c2_witness :
    bind_binder { registered_py_symbols := [], polyglot_exports := [] } (some "say_hello") "f" 1 =
      Except.ok ({ registered_py_symbols := [], polyglot_exports := [("say_hello", 1)] }, 1) ∧
    bind_binder { registered_py_symbols := [], polyglot_exports := [("say_hello", 1)] }
        (some "say_hello") "g" 2 =
      Except.ok ({ registered_py_symbols := [], polyglot_exports := [("say_hello", 2)] }, 2) := by
  constructor
  · rw [c2_duplicate_bind_never_fails { registered_py_symbols := [], polyglot_exports := [] }
      rfl (some "say_hello") "f" 1]
    decide
  · rw [c2_duplicate_bind_never_fails
      { registered_py_symbols := [], polyglot_exports := [("say_hello", 1)] }
      rfl (some "say_hello") "g" 2]
    decide

/-- Claim C3: when the overlay binds k to the falsy empty string and the
base lacks k, membership reports the key as present, while __getitem__
raises KeyError and get(k, default) also raises KeyError instead of
returning the value or the default. -/
theorem c3_falsy_overlay_inconsistency (s : EnvState) (k d : String)
    (hv : s.virtual_env.lookup k = some "") (hb : s.app_environ.lookup k = none) :
    contains_key s k = true ∧
    env_getitem s k = Except.error () ∧
    env_get s k d = Except.error () := by
  have ht : truthy "" = false := by decide
  refine ⟨?_, ?_, ?_⟩
  · simp [contains_key, hv, hb]
  · simp [env_getitem, hv, hb, ht]
  · simp [env_get, contains_key, hv, hb, env_getitem, ht]

/-- Claim C3 witness: overlay "K" set to the empty string, base empty. -/
theorem c3_witness :
    contains_key { app_environ := [], virtual_env := [("K", "")] } "K" = true ∧
    env_getitem { app_environ := [], virtual_env := [("K", "")] } "K" = Except.error () ∧
    env_get { app_environ := [], virtual_env := [("K", "")] } "K" "dflt" = Except.error () :=
  c3_falsy_overlay_inconsistency { app_environ := [], virtual_env := [("K", "")] } "K" "dflt"
    (by decide) (by decide)

/-- Claim C4: install is idempotent — installing twice yields the same
process state as installing once; after any install the _patched guard is
set; and a first install from an unpatched state creates or reuses the
singleton and makes it the process-wide environment accessor. -/
theorem c4_install_idempotent (s : InstallState) :
    install (install s) = install s ∧
    (install s).patched = true ∧
    (s.patched = false →
      (install s).singleton = some (singletonId s) ∧
      (install s).osEnv = OsAccessor.resolver (singletonId s)) := by
  obtain ⟨os, p, sg, n⟩ := s
  cases p <;> cases sg <;>
    simp [install, resolve_singleton, patch, singletonId, Option.getD]

/-- Claim C4 witness: from the fresh process state, install(); install()
ends as install() does, with the guard set and os.environ replaced by the
resolver singleton. -/
theorem c4_witness :
    install (install { osEnv := OsAccessor.native, patched := false, singleton := none, nextId := 0 }) =
      install { osEnv := OsAccessor.native, patched := false, singleton := none, nextId := 0 } ∧
    (install { osEnv := OsAccessor.native, patched := false, singleton := none, nextId := 0 }).patched = true ∧
    (install { osEnv := OsAccessor.native, patched := false, singleton := none, nextId := 0 }).singleton = some 0 ∧
    (install { osEnv := OsAccessor.native, patched := false, singleton := none, nextId := 0 }).osEnv = OsAccessor.resolver 0 := by
  have h := c4_install_idempotent
    { osEnv := OsAccessor.native, patched := false, singleton := none, nextId := 0 }
  exact ⟨h.1, h.2.1, (h.2.2 rfl).1, (h.2.2 rfl).2⟩

/-- Claim C5: for a registered endpoint whose template builds a path from
the given parameters, url_for returns that path with every surplus entry
appended as a percent-encoded query string — nothing when no entry is
surplus, otherwise a question mark before the first encoded key=value
entry and an ampersand before each subsequent one. -/
theorem c5_url_for_appends_surplus_query (routes : List (String × String))
    (endpoint pattern : String) (params : List (String × String)) (path : String)
    (hr : routes.lookup endpoint = some pattern)
    (hb : buildPath (compilePattern pattern) params = some path) :
    url_for routes endpoint params =
      some (path ++
        (if (surplusParams (compilePattern pattern) params).isEmpty then ""
         else "?" ++ String.intercalate "&"
            ((surplusParams (compilePattern pattern) params).map queryEntry))) := by
  simp [url_for, hr, hb, queryString]

/-- Claim C5 witness: the spec's example — endpoint hello_world with
template /hello/<name> and params name=Dario, flair=true reverses to
/hello/Dario?flair=true. -/
theorem c5_witness :
    url_for [("hello_world", "/hello/<name>")] "hello_world"
      [("name", "Dario"), ("flair", "true")] = some "/hello/Dario?flair=true" := by
  rw [c5_url_for_appends_surplus_query [("hello_world", "/hello/<name>")] "hello_world"
    "/hello/<name>" [("name", "Dario"), ("flair", "true")] "/hello/Dario"
    (by decide) (by decide)]
  decide

/-- Claim C6: for every target, redirect returns a response with status
exactly 302, headers holding exactly the single Location entry for the
target, and an empty body. -/
theorem c6_redirect_shape (target : String) :
    (redirect target).status = 302 ∧
    (redirect target).headers = [("Location", target)] ∧
    (redirect target).body = "" :=
  ⟨rfl, rfl, rfl⟩

/-- Claim C7 counterexample: the claim as stated fails for a falsy value.
Instance env1 (base and shared overlay both empty) executes env1["K"] = "";
instance env2 (its own empty base, the same shared overlay) then reads "K"
through __getitem__ and gets KeyError, not the written empty string. -/
theorem c7_counterexample :
    env_getitem
        { app_environ := [],
          virtual_env := (env_setitem { app_environ := [], virtual_env := [] } "K" "").virtual_env }
        "K" ≠ Except.ok "" := by
  decide

/-- Claim C7 as amended: __setitem__ writes into the class-level overlay
dict shared by all instances, so after env1[k] = v the shared overlay maps
k to v; any other instance env2 (any base layer, same shared overlay)
reports the key present, and env2[k] returns v whenever v is truthy — for
falsy v the __getitem__ or-expression falls through to env2's base
instead of returning v. -/
theorem c7_shared_class_level_overlay (shared app1 app2 : List (String × String))
    (k v : String) :
    (env_setitem { app_environ := app1, virtual_env := shared } k v).virtual_env.lookup k =
      some v ∧
    contains_key
      { app_environ := app2,
        virtual_env := (env_setitem { app_environ := app1, virtual_env := shared } k v).virtual_env }
      k = true ∧
    (truthy v = true →
      env_getitem
        { app_environ := app2,
          virtual_env := (env_setitem { app_environ := app1, virtual_env := shared } k v).virtual_env }
        k = Except.ok v) := by
  have hl : (dictSet shared k v).lookup k = some v := lookup_dictSet_self shared k v
  refine ⟨hl, ?_, ?_⟩
  · simp [contains_key, env_setitem, hl]
  · intro ht
    simp [env_getitem, env_setitem, hl, ht]

/-- Claim C7 witness: a concrete truthy write through env1 is observed
through env2. -/
theorem c7_witness :
    (env_setitem { app_environ := [], virtual_env := [] } "K" "yes").virtual_env.lookup "K" =
      some "yes" ∧
    contains_key
      { app_environ := [("B", "b")],
        virtual_env := (env_setitem { app_environ := [], virtual_env := [] } "K" "yes").virtual_env }
      "K" = true ∧
    env_getitem
      { app_environ := [("B", "b")],
        virtual_env := (env_setitem { app_environ := [], virtual_env := [] } "K" "yes").virtual_env }
      "K" = Except.ok "yes" := by
  have h := c7_shared_class_level_overlay [] [] [("B", "b")] "K" "yes"
  exact ⟨h.1, h.2.1, h.2.2 (by decide)⟩

/-- Claim C8: __setitem__ writes only into the overlay layer — the base
layer mapping is identical before and after, as a whole and pointwise at
every key, the written key included. -/
theorem c8_setitem_preserves_base (s : EnvState) (k v k' : String) :
    (env_setitem s k v).app_environ = s.app_environ ∧
    (env_setitem s k v).app_environ.lookup k' = s.app_environ.lookup k' :=
  ⟨rfl, rfl⟩

/-- Claim C9: all_keys is exactly the union of the base layer's key set
and the overlay layer's key set, and contains_key holds exactly on that
union. -/
theorem c9_all_keys_is_union (s : EnvState) (k : String) :
    all_keys s =
      (s.app_environ.map Prod.fst).toFinset ∪ (s.virtual_env.map Prod.fst).toFinset ∧
    (contains_key s k = true ↔ k ∈ all_keys s) := by
  constructor
  · ext x
    simp only [all_keys, mem_foldl_insert, Finset.mem_union, List.mem_toFinset]
  · simp only [contains_key, Bool.or_eq_true, lookup_isSome_iff_mem_keys,
      all_keys, mem_foldl_insert, List.mem_toFinset]

/-- Claim C10: the route decorators wrap a handler at most once. Applying
the wrapper to an unwrapped handler creates the marked dispatcher and
returns it; applying any further route decoration to that returned object
registers the very same object with the bridge and returns it unchanged,
so every registration of a multiply-decorated handler carries the one
dispatcher. -/
theorem c10_route_wraps_at_most_once (bridge : List RouteReg) (rule : String)
    (optMethods : Option (List String)) (h : PyHandler)
    (hm : hasMarker h = false) :
    hasMarker (route_handler_wrapper bridge rule optMethods h).2 = true ∧
    (route_handler_wrapper bridge rule optMethods h).2 = PyHandler.dispatcher h ∧
    (∀ (bridge2 : List RouteReg) (rule2 : String) (optMethods2 : Option (List String)),
      route_handler_wrapper bridge2 rule2 optMethods2
          (route_handler_wrapper bridge rule optMethods h).2 =
        (bridge2 ++ [⟨"dispatcher", rule2, optMethods2.getD ["GET"], PyHandler.dispatcher h⟩],
         PyHandler.dispatcher h)) := by
  cases h with
  | dispatcher inner => simp [hasMarker] at hm
  | plain nm id =>
    refine ⟨?_, ?_, ?_⟩ <;> simp [route_handler_wrapper, hasMarker, pyName]

/-- Claim C10 witness: stacking two get-decorators on a plain handler, as
the demo app stacks app.get("/hello") over app.get("/hello/<name>"),
yields one dispatcher registered by both applications and returned
unchanged by the second. -/
theorem c10_witness :
    hasMarker (route_handler_wrapper [] "/hello/<name>" (some ["GET"]) (PyHandler.plain "hello_world" 0)).2 = true ∧
    (route_handler_wrapper [] "/hello/<name>" (some ["GET"]) (PyHandler.plain "hello_world" 0)).2 =
      PyHandler.dispatcher (PyHandler.plain "hello_world" 0) ∧
    route_handler_wrapper [] "/hello" (some ["GET"])
        (route_handler_wrapper [] "/hello/<name>" (some ["GET"]) (PyHandler.plain "hello_world" 0)).2 =
      ([⟨"dispatcher", "/hello", ["GET"], PyHandler.dispatcher (PyHandler.plain "hello_world" 0)⟩],
       PyHandler.dispatcher (PyHandler.plain "hello_world" 0)) := by
  have h := c10_route_wraps_at_most_once [] "/hello/<name>" (some ["GET"])
    (PyHandler.plain "hello_world" 0) (by decide)
  exact ⟨h.1, h.2.1, by rw [h.2.2 [] "/hello" (some ["GET"])]; rfl⟩

end ElidePy
